import Mathlib

/-!
Verification of the sound-priority audio control loop.

This file gives a shallow embedding of the volume-ducking daemon:

* `src/config.rs` — the `Config` structure with its serde defaults;
* `src/deamon.rs` — the daemon control loop `create_daemon`: per-tick
  classification of sessions, the hysteresis state machine (`VolumeStatus`
  with the asymmetric debounce timeouts), and the per-tick fade step;
* `src/main.rs` — the inline daemon `start_daemon` that `main` actually
  spawns; it shares the classifier / state machine / fader code with
  `deamon.rs` verbatim and differs only in how it refreshes the session
  snapshot (an `unwrap` on `winmix.get_default()` every
  `REFRESH_AFTER_TICKS` ticks instead of `DefaultDerive::sync`);
* `src/winmix/default.rs` — `DefaultDerive::sync`, which reconciles the
  device/session snapshot against dirty flags and absorbs failures.

`f32` volume/peak arithmetic is modelled over `ℚ`; `Duration` values are
modelled as natural numbers of milliseconds.  A Rust panic (an `unwrap` or
`expect` firing) is modelled by an `Option`-valued function returning
`none`.  Volume writes (`set_volume`, whose `Result` the source discards
with `let _ =`) are modelled as a list of emitted `(pid, level)` effects.
-/

set_option maxRecDepth 100000

/-- Substring containment on character lists: some suffix of `s` starts
with `pat`. -/
def listContainsSub : List Char → List Char → Bool
  | [], pat => pat.isEmpty
  | c :: rest, pat => pat.isPrefixOf (c :: rest) || listContainsSub rest pat

/-- Rust `str::contains` (substring containment) on the session name. -/
def rustContains (s pat : String) : Bool :=
  listContainsSub s.data pat.data

/-- Structure `Config` from `src/config.rs`. -/
structure Config where
  exclude : List String
  targets : List String
  transform_speed : ℚ
  resotre_volume : ℚ
  reduce_volume : ℚ
  sensitivity : ℚ
deriving DecidableEq, Repr

/-- Constructor `Config::new` from `src/config.rs` (the serde defaults:
`transform_speed = 1.0`, `resotre_volume = 1.0`, `reduce_volume = 0.5`,
`sensitivity = 0.1`). -/
def Config.new : Config :=
  ⟨[], [], 1, 1, 1 / 2, 1 / 10⟩

/-- Constant `TICK` from `src/deamon.rs` line 10 (100 ms), in milliseconds. -/
def TICK : ℕ := 100

/-- Constant `TRANSFORM_SPEED` from `src/deamon.rs` line 11 (also `src/main.rs`
line 103): the fixed per-tick fade step, `0.05`. -/
def TRANSFORM_SPEED : ℚ := 5 / 100

/-- Constant `REDUCE_TIMEOUT` from `src/deamon.rs` line 13 (200 ms). -/
def REDUCE_TIMEOUT : ℕ := 200

/-- Constant `RESOTRE_TIMEOUT` from `src/deamon.rs` line 14 (3 s = 3000 ms). -/
def RESOTRE_TIMEOUT : ℕ := 3000

/-- Constant `FORCE_RELOAD_TICKS` from `src/deamon.rs` line 16. -/
def FORCE_RELOAD_TICKS : ℕ := 600

/-- Constant `REFRESH_AFTER_TICKS` from `src/main.rs` line 104 (the inline daemon
refreshes its session list every 50 ticks). -/
def REFRESH_AFTER_TICKS : ℕ := 50

/-- Type `VolumeStatus` from `src/deamon.rs` lines 154-158. -/
inductive VolumeStatus where
  | Restore : VolumeStatus
  | Reduce : VolumeStatus
deriving DecidableEq, Repr

/-- Method `VolumeStatus::toggle` from `src/deamon.rs` lines 161-166. -/
def VolumeStatus.toggle : VolumeStatus → VolumeStatus
  | VolumeStatus.Restore => VolumeStatus.Reduce
  | VolumeStatus.Reduce => VolumeStatus.Restore

/-- The status-specific pending timeout (the `match` inside
`VolumeStatus::is_timeout`, `src/deamon.rs` lines 169-172). -/
def statusTimeout : VolumeStatus → ℕ
  | VolumeStatus.Restore => RESOTRE_TIMEOUT
  | VolumeStatus.Reduce => REDUCE_TIMEOUT

/-- Method `VolumeStatus::is_timeout` from `src/deamon.rs` lines 167-173:
the accumulated pending time has reached the status-specific timeout. -/
def VolumeStatus.is_timeout (s : VolumeStatus) (time : ℕ) : Bool :=
  decide (time ≥ statusTimeout s)

/-- Method `VolumeStatus::volume` from `src/deamon.rs` lines 174-179. -/
def VolumeStatus.volume (s : VolumeStatus) (config : Config) : ℚ :=
  match s with
  | VolumeStatus.Restore => config.resotre_volume
  | VolumeStatus.Reduce => config.reduce_volume

/-- Method `VolumeStatus::new` from `src/deamon.rs` lines 180-186. -/
def VolumeStatus.new (reduce : Bool) : VolumeStatus :=
  if reduce then VolumeStatus.Reduce else VolumeStatus.Restore

/-- One audio session as the loop observes it during a tick
(`src/winmix/session.rs`): the pid, the derived display name, and the
outcome of the fallible per-session capability calls the tick makes.
`volume`/`volumeOk` model `SessionVolume::get_volume` (value, and whether
the call returns `Ok`); `peak` models `SessionVolume::get_peak`
(`none` = the read fails). -/
structure Session where
  pid : ℕ
  name : String
  volume : ℚ
  volumeOk : Bool
  peak : Option ℚ
deriving DecidableEq, Repr

/-- The mutable snapshot held by `DefaultDerive` in `src/winmix/default.rs`:
the current default device (identified abstractly by a number), its session
list, and the two notification dirty flags. -/
structure Snapshot where
  derive : ℕ
  sessions : List Session
  derive_change : Bool
  ssession_change : Bool
deriving DecidableEq, Repr

/-- The environment of one `DefaultDerive::sync` call: the result of
`WinMix::get_current_default` (`none` = error) and the result of
`Derive::sessions()` on the then-current device (`none` = error). -/
structure SyncEnv where
  getDefaultResult : Option ℕ
  sessionsResult : Option (List Session)
deriving DecidableEq, Repr

/-- Method `DefaultDerive::sync` from `src/winmix/default.rs` lines 40-74.
Returns the updated snapshot together with the warning log lines emitted.
The Rust function's `Result` return value is always `Ok(())`: every
failure is absorbed inside (logged, previous snapshot field retained). -/
def defaultSync (snap : Snapshot) (force : Bool) (env : SyncEnv) :
    Snapshot × List String :=
  let derive_changed := force || snap.derive_change
  let ssession_changed := force || snap.ssession_change
  let step1 :=
    if derive_changed then
      match env.getDefaultResult with
      | some d => (d, true, ([] : List String))
      | none => (snap.derive, ssession_changed, ["Failed to get default device"])
    else (snap.derive, ssession_changed, ([] : List String))
  let derive' := step1.1
  let ssession_changed' := step1.2.1
  let log1 := step1.2.2
  let derive_change' := if derive_changed then false else snap.derive_change
  let step2 :=
    if ssession_changed' then
      match env.sessionsResult with
      | some ss => (ss, ([] : List String))
      | none => (snap.sessions, ["Failed to get sessions"])
    else (snap.sessions, ([] : List String))
  let ssession_change' := if ssession_changed' then false else snap.ssession_change
  (⟨derive', step2.1, derive_change', ssession_change'⟩, log1 ++ step2.2)

/-- The session-refresh step of `start_daemon` in `src/main.rs` lines
144-148: every `REFRESH_AFTER_TICKS` ticks it replaces the session list
with `winmix.get_default().unwrap().sessions`.  `getDefault` is the
result of `winmix.get_default()` (`none` = `Err`); the `unwrap` of an
`Err` is a panic, modelled by `none`. -/
def mainrsRefreshSessions (ticks : ℕ) (sessions : List Session)
    (getDefault : Option (List Session)) : Option (List Session) :=
  if ticks % REFRESH_AFTER_TICKS = 0 then getDefault else some sessions

/-- Predicate `is_target` from `src/deamon.rs` line 97 (= `src/main.rs` lines
153-156): some configured target substring occurs in the session name. -/
def sessionIsTarget (config : Config) (s : Session) : Bool :=
  config.targets.any fun t => rustContains s.name t

/-- Predicate `is_exclude` from `src/deamon.rs` line 103 (= `src/main.rs` lines
158-161): some configured exclude substring occurs in the session name. -/
def sessionIsExclude (config : Config) (s : Session) : Bool :=
  config.exclude.any fun e => rustContains s.name e

/-- The peak fold of `src/deamon.rs` lines 92-111 (= `src/main.rs` lines
150-167): starting from `0.0`, fold `max` over the peaks of the sessions
that are neither target nor exclude and whose `get_peak` succeeds. -/
def measuredPeak (config : Config) (sessions : List Session) : ℚ :=
  sessions.foldl
    (fun peak s =>
      if !sessionIsTarget config s && !sessionIsExclude config s then
        match s.peak with
        | some p => max peak p
        | none => peak
      else peak)
    0

/-- The target set built in `src/deamon.rs` lines 99-101 (= `src/main.rs`
lines 169-171).  The source inserts into a `HashSet` keyed by pid; the
embedding keeps the sessions in list order (per-target fade computations
are independent of iteration order). -/
def targetsOf (config : Config) (sessions : List Session) : List Session :=
  sessions.filter fun s => sessionIsTarget config s

/-- Rust `f32::signum` restricted to non-NaN inputs: `1.0` for positive or
`+0.0`, `-1.0` for negative. -/
def rustSignum (q : ℚ) : ℚ :=
  if 0 ≤ q then 1 else -1

/-- The per-session fade step of `src/deamon.rs` lines 130-137
(= `src/main.rs` lines 191-198): the new volume to write, and whether the
session converged this tick (the source decrements `fadeing` exactly in
that branch). -/
def fadeVolume (expect_volume volume : ℚ) : ℚ × Bool :=
  if |expect_volume - volume| > TRANSFORM_SPEED then
    (volume + rustSignum (expect_volume - volume) * TRANSFORM_SPEED, false)
  else
    (expect_volume, true)

/-- Modelled from the spec: the per-tick fade step as §4.5 words it, with a
*configurable* step size (the claimed "configured transform speed"):
"If `|offset| > stepSize` (configured transform speed), move volume by
`stepSize * sign(offset)`; otherwise snap exactly to `desiredVolume`".
Kept separate from `fadeVolume` (the code, which uses the constant
`TRANSFORM_SPEED`) so the two can be compared. -/
def fadeVolumeSpec (stepSize expect_volume volume : ℚ) : ℚ × Bool :=
  if |expect_volume - volume| > stepSize then
    (volume + rustSignum (expect_volume - volume) * stepSize, false)
  else
    (expect_volume, true)

/-- The fade loop body of `src/deamon.rs` lines 127-144 over a target
list: `none` models the panic of `get_volume().unwrap()` on a session
whose volume read fails; otherwise returns the `(pid, level)` writes
passed to `set_volume` (whose own result the source discards) and the
number of sessions that converged (`targets.len() - fadeing`). -/
def fadeAll (expect_volume : ℚ) : List Session → Option (List (ℕ × ℚ) × ℕ)
  | [] => some ([], 0)
  | s :: rest =>
    if s.volumeOk then
      let step := fadeVolume expect_volume s.volume
      match fadeAll expect_volume rest with
      | some (ws, k) => some ((s.pid, step.1) :: ws, k + if step.2 then 1 else 0)
      | none => none
    else none

/-- Iterating the fade step: the volume of one target session after `n`
ticks of fading toward `expect_volume` (volume reads and writes
succeeding). -/
def fadeIter (expect_volume v : ℚ) : ℕ → ℚ
  | 0 => v
  | n + 1 => fadeIter expect_volume (fadeVolume expect_volume v).1 n

/-- The desired status computed each tick (`src/deamon.rs` line 113,
`src/main.rs` line 174): `VolumeStatus::new(peak > config.sensitivity)`
— a strict comparison. -/
def desiredStatus (config : Config) (peak : ℚ) : VolumeStatus :=
  VolumeStatus.new (decide (peak > config.sensitivity))

/-- The hysteresis step of `src/deamon.rs` lines 113-125: given the
current status, the pending-timeout accumulator (ms) and the measured
peak, produce the next status, the next accumulator, and whether the
status flipped this tick. -/
def statusStep (config : Config) (volume_status : VolumeStatus) (timeout : ℕ)
    (peak : ℚ) : VolumeStatus × ℕ × Bool :=
  let status := desiredStatus config peak
  if status ≠ volume_status then
    if status.is_timeout (timeout + TICK) then
      (volume_status.toggle, 0, true)
    else
      (volume_status, timeout + TICK, false)
  else
    (volume_status, 0, false)

/-- Running the hysteresis machine over a finite list of measured peaks:
final `(status, accumulator)` plus the number of flips performed. -/
def statusRun (config : Config) : VolumeStatus × ℕ → List ℚ → (VolumeStatus × ℕ) × ℕ
  | st, [] => (st, 0)
  | st, p :: rest =>
    let step := statusStep config st.1 st.2 p
    let tail := statusRun config (step.1, step.2.1) rest
    (tail.1, (if step.2.2 then 1 else 0) + tail.2)

/-- Running the hysteresis machine from its initial state
(`VolumeStatus::Restore`, zero accumulator — `src/deamon.rs` lines 50-52)
over an infinite peak sequence `f`: the `(status, accumulator)` after `n`
ticks. -/
def statusRunF (config : Config) (f : ℕ → ℚ) : ℕ → VolumeStatus × ℕ
  | 0 => (VolumeStatus.Restore, 0)
  | n + 1 =>
    let st := statusRunF config f n
    let step := statusStep config st.1 st.2 (f n)
    (step.1, step.2.1)

/-- The loop-owned mutable state of `create_daemon` in `src/deamon.rs`
lines 45-58: the current configuration, the `transform` (fade armed)
flag, the tick counter, the hysteresis status, the fade target volume
`expect_volume`, the pending-timeout accumulator (ms), and the
device/session snapshot `device`. -/
structure DaemonState where
  config : Config
  transform : Bool
  ticks : ℕ
  volume_status : VolumeStatus
  expect_volume : ℚ
  timeout : ℕ
  device : Snapshot
deriving DecidableEq, Repr

/-- The initial daemon state (`src/deamon.rs` lines 47-54): fade armed,
`ticks = 1`, status `Restore`, fade target the configured restore volume,
zero accumulator, and the startup snapshot. -/
def initDaemonState (config : Config) (snap : Snapshot) : DaemonState :=
  ⟨config, true, 1, VolumeStatus.Restore, config.resotre_volume, 0, snap⟩

/-- The outcome of the "running daemon" part of one loop iteration: the
updated state and the `(pid, level)` volume writes issued. -/
structure TickResult where
  state : DaemonState
  writes : List (ℕ × ℚ)
deriving DecidableEq, Repr

/-- The session list the tick works on: the snapshot's sessions after the
`device.sync(ticks % FORCE_RELOAD_TICKS == 0)` call of `src/deamon.rs`
line 87. -/
def syncedSessions (st : DaemonState) (env : SyncEnv) : List Session :=
  (defaultSync st.device (decide (st.ticks % FORCE_RELOAD_TICKS = 0)) env).1.sessions

/-- The part of one `create_daemon` iteration after the sync call
(`src/deamon.rs` lines 92-147), over the post-sync snapshot `snap`:
classify sessions and measure the peak, step the hysteresis machine, run
the fade loop if `transform` is armed, and bump the (wrapping 64-bit)
tick counter.  `none` models a panic of `get_volume().unwrap()` in the
fade loop. -/
def runningPhase (st : DaemonState) (snap : Snapshot) : Option TickResult :=
  let sessions := snap.sessions
  let peak := measuredPeak st.config sessions
  let targets := targetsOf st.config sessions
  let step := statusStep st.config st.volume_status st.timeout peak
  let vs := step.1
  let tmo := step.2.1
  let flipped := step.2.2
  let expect := if flipped then vs.volume st.config else st.expect_volume
  let transform := if flipped then true else st.transform
  let ticks' := (st.ticks + 1) % 2 ^ 64
  if transform then
    match fadeAll expect targets with
    | some (ws, snaps) =>
      some ⟨⟨st.config, if snaps = targets.length then false else true,
             ticks', vs, expect, tmo, snap⟩, ws⟩
    | none => none
  else
    some ⟨⟨st.config, transform, ticks', vs, expect, tmo, snap⟩, []⟩

/-- The full "running daemon" part of one iteration of `create_daemon`
(`src/deamon.rs` lines 86-147): `device.sync(ticks % FORCE_RELOAD_TICKS
== 0)` followed by the classify / state-machine / fade phase. -/
def runTick (st : DaemonState) (env : SyncEnv) : Option TickResult :=
  runningPhase st (defaultSync st.device (decide (st.ticks % FORCE_RELOAD_TICKS = 0)) env).1

/-- Type `DaemonCommand` from `src/deamon.rs` lines 39-43. -/
inductive DaemonCommand where
  | Resume : DaemonCommand
  | Suspend : DaemonCommand
  | Update : Config → DaemonCommand
deriving DecidableEq, Repr

/-- Whether a command is `Resume` (the only one the suspended inner loop
acts on). -/
def DaemonCommand.isResume : DaemonCommand → Bool
  | DaemonCommand.Resume => true
  | _ => false

/-- Outcome of the suspended inner loop of `src/deamon.rs` lines 69-80. -/
inductive SuspendResult where
  | resumed : List DaemonCommand → SuspendResult
  | stopped : SuspendResult
  | blocked : SuspendResult
deriving DecidableEq, Repr

/-- The suspended inner loop of `src/deamon.rs` lines 69-80: block on
`receiver.recv()`; `Resume` breaks back to the main loop with the
remaining queue, any other command is logged and ignored, and a
disconnected channel (`Err`) breaks the outer `'main` loop.  The queue
models the commands that arrive while suspended; when it is exhausted
with the sender still connected the loop keeps blocking (`blocked`),
and with the sender dropped `recv` returns `Err` (`stopped`). -/
def suspendLoop (connected : Bool) : List DaemonCommand → SuspendResult
  | [] => if connected then SuspendResult.blocked else SuspendResult.stopped
  | DaemonCommand.Resume :: rest => SuspendResult.resumed rest
  | DaemonCommand.Suspend :: rest => suspendLoop connected rest
  | DaemonCommand.Update _ :: rest => suspendLoop connected rest

/-- Outcome of one full iteration of the `'main` loop. -/
inductive LoopStep where
  | ran : TickResult → List DaemonCommand → LoopStep
  | stopped : LoopStep
  | blocked : LoopStep
  | panicked : LoopStep
deriving DecidableEq, Repr

/-- Helper: finish an iteration by running the tick. -/
def runToStep (st : DaemonState) (env : SyncEnv) (rest : List DaemonCommand) :
    LoopStep :=
  match runTick st env with
  | some r => LoopStep.ran r rest
  | none => LoopStep.panicked

/-- One full iteration of the `'main` loop of `src/deamon.rs` lines
60-148: `try_recv` at most one command (`pending` is the queued commands,
`connected` whether the sender is still alive once the queue is empty),
handle it, then run the tick.  `Update` replaces the configuration,
`Suspend` enters the blocking inner loop, `Resume` while running is a
logged no-op, a disconnected empty channel breaks the loop. -/
def loopIter (st : DaemonState) (pending : List DaemonCommand)
    (connected : Bool) (env : SyncEnv) : LoopStep :=
  match pending with
  | [] =>
    if connected then runToStep st env []
    else LoopStep.stopped
  | DaemonCommand.Update c :: rest =>
    runToStep ⟨c, st.transform, st.ticks, st.volume_status, st.expect_volume,
               st.timeout, st.device⟩ env rest
  | DaemonCommand.Resume :: rest => runToStep st env rest
  | DaemonCommand.Suspend :: rest =>
    match suspendLoop connected rest with
    | SuspendResult.resumed rest' => runToStep st env rest'
    | SuspendResult.stopped => LoopStep.stopped
    | SuspendResult.blocked => LoopStep.blocked

/-- Extract the fade target volume of the state an iteration ended in. -/
def LoopStep.expectVolume : LoopStep → Option ℚ
  | LoopStep.ran r _ => some r.state.expect_volume
  | _ => none

/-- Spec-side reformulation of the peak measurement (spec §4.3): the
measured peak is the `max`-fold (floor `0`) of the successfully read
peaks of exactly the sessions whose name matches no target substring and
no exclude substring. -/
def measuredPeakFilterSpec (config : Config) (sessions : List Session) : ℚ :=
  ((sessions.filter fun s =>
      !sessionIsTarget config s && !sessionIsExclude config s).filterMap
    fun s => s.peak).foldl max 0

/-- A configuration like the spec §8 scenario: target `"game"`,
`reduceVolume = 0.3`, `restoreVolume = 1.0`, `sensitivity = 0.1`. -/
def cfgGame : Config :=
  ⟨[], ["game"], 1, 1, 3 / 10, 1 / 10⟩

/-- Configuration `cfgGame` with a new reduce volume `0.6`, as delivered by an
`UpdateConfig` command mid-fade. -/
def cfgGameNewReduce : Config :=
  ⟨[], ["game"], 1, 1, 3 / 5, 1 / 10⟩

/-- A target session (`game.exe`, derived name `"game"`) whose
`get_volume` read fails. -/
def sessGameBadRead : Session :=
  ⟨101, "game", 1 / 2, false, none⟩

/-- A target session (`game.exe`) at volume `0.5`, readable, silent. -/
def sessGame : Session :=
  ⟨101, "game", 1 / 2, true, some 0⟩

/-- A daemon state mid-tick whose snapshot holds one target session with
a failing volume read; fade armed. -/
def stBadRead : DaemonState :=
  ⟨cfgGame, true, 1, VolumeStatus.Restore, 1, 0, ⟨7, [sessGameBadRead], false, false⟩⟩

/-- A daemon state mid-fade toward `cfgGame`'s reduce volume `0.3`:
status `Reduce`, fade target `0.3`, fade armed, target at volume `0.5`. -/
def stMidFade : DaemonState :=
  ⟨cfgGame, true, 5, VolumeStatus.Reduce, 3 / 10, 0, ⟨7, [sessGame], false, false⟩⟩

/-- A sync environment in which both `get_current_default` and
`Derive::sessions` fail. -/
def envAllFail : SyncEnv :=
  ⟨none, none⟩

/-- A snapshot used for the sync counterexamples. -/
def snapPrev : Snapshot :=
  ⟨7, [sessGame], false, false⟩

example : runTick stBadRead envAllFail = none := by with_unfolding_all decide
example : (loopIter stMidFade [DaemonCommand.Update cfgGameNewReduce] true
    envAllFail).expectVolume = some (3 / 10) := by with_unfolding_all decide
example : (defaultSync snapPrev true envAllFail).1.sessions = snapPrev.sessions := by
  with_unfolding_all decide
example : (defaultSync snapPrev true envAllFail).2 =
    ["Failed to get default device", "Failed to get sessions"] := by
  with_unfolding_all decide
example : mainrsRefreshSessions 50 [sessGame] none = none := by decide

example : rustContains "game" "am" = true := by decide
example : rustContains "game" "amx" = false := by decide
example : fadeVolume 1 0 = (1 / 20, false) := by with_unfolding_all decide
example : fadeVolume (3 / 10) (32 / 100) = (3 / 10, true) := by with_unfolding_all decide
example : fadeIter (3 / 10) 1 14 = 3 / 10 := by with_unfolding_all decide
example : statusStep Config.new VolumeStatus.Restore 0 (1 / 2) =
    (VolumeStatus.Restore, 100, false) := by with_unfolding_all decide
example : statusStep Config.new VolumeStatus.Restore 100 (1 / 2) =
    (VolumeStatus.Reduce, 0, true) := by with_unfolding_all decide
example : (Int.ceil (|(3 : ℚ) / 10 - 1| / TRANSFORM_SPEED)).toNat = 14 := by
  with_unfolding_all decide

/-! ### Basic lemmas about the embedded operations -/

lemma transform_speed_pos : (0 : ℚ) < TRANSFORM_SPEED := by
  norm_num [TRANSFORM_SPEED]

lemma VolumeStatus.toggle_ne (vs : VolumeStatus) : vs.toggle ≠ vs := by
  cases vs <;> simp [VolumeStatus.toggle]

lemma desiredStatus_of_loud {c : Config} {p : ℚ} (h : p > c.sensitivity) :
    desiredStatus c p = VolumeStatus.Reduce := by
  simp [desiredStatus, VolumeStatus.new, h]

lemma desiredStatus_of_quiet {c : Config} {p : ℚ} (h : ¬ p > c.sensitivity) :
    desiredStatus c p = VolumeStatus.Restore := by
  simp [desiredStatus, VolumeStatus.new, h]

lemma statusStep_same {c : Config} {vs : VolumeStatus} {t : ℕ} {p : ℚ}
    (h : desiredStatus c p = vs) :
    statusStep c vs t p = (vs, 0, false) := by
  simp [statusStep, h]

lemma statusStep_pending {c : Config} {vs : VolumeStatus} {t : ℕ} {p : ℚ}
    (h : desiredStatus c p ≠ vs)
    (h2 : t + TICK < statusTimeout (desiredStatus c p)) :
    statusStep c vs t p = (vs, t + TICK, false) := by
  simp only [statusStep, VolumeStatus.is_timeout]
  rw [if_pos h, if_neg]
  simp only [decide_eq_true_eq]
  omega

lemma statusStep_flip {c : Config} {vs : VolumeStatus} {t : ℕ} {p : ℚ}
    (h : desiredStatus c p ≠ vs)
    (h2 : statusTimeout (desiredStatus c p) ≤ t + TICK) :
    statusStep c vs t p = (vs.toggle, 0, true) := by
  simp only [statusStep, VolumeStatus.is_timeout]
  rw [if_pos h, if_pos]
  simp only [decide_eq_true_eq]
  omega

/-- If the desired status equals the current one on every tick, the
machine stays put with a zero accumulator and never flips. -/
lemma statusRun_steady (c : Config) (vs : VolumeStatus) :
    ∀ peaks : List ℚ, (∀ p ∈ peaks, desiredStatus c p = vs) →
      statusRun c (vs, 0) peaks = ((vs, 0), 0) := by
  intro peaks
  induction peaks with
  | nil => intro _; rfl
  | cons p rest ih =>
    intro h
    have hp : desiredStatus c p = vs := h p (List.mem_cons_self p rest)
    have hrest := ih fun q hq => h q (List.mem_cons_of_mem p hq)
    simp [statusRun, statusStep_same hp, hrest]

/-- If the desired status differs from the current one on every tick,
the accumulator grows by `TICK` per tick until it reaches the timeout of
the desired (toggled) status, at which point the machine flips exactly
once and then stays in the new status with a zero accumulator. -/
lemma statusRun_pending (c : Config) (vs : VolumeStatus) :
    ∀ (peaks : List ℚ) (t : ℕ),
      (∀ p ∈ peaks, desiredStatus c p = vs.toggle) →
      t < statusTimeout vs.toggle →
      statusRun c (vs, t) peaks =
        if t + peaks.length * TICK < statusTimeout vs.toggle then
          ((vs, t + peaks.length * TICK), 0)
        else
          ((vs.toggle, 0), 1) := by
  intro peaks
  induction peaks with
  | nil =>
    intro t _ ht
    simp only [statusRun, List.length_nil, Nat.zero_mul, Nat.add_zero]
    rw [if_pos ht]
  | cons p rest ih =>
    intro t h ht
    have hp : desiredStatus c p = vs.toggle := h p (List.mem_cons_self p rest)
    have hne : desiredStatus c p ≠ vs := by
      rw [hp]; exact VolumeStatus.toggle_ne vs
    have hrest : ∀ q ∈ rest, desiredStatus c q = vs.toggle :=
      fun q hq => h q (List.mem_cons_of_mem p hq)
    by_cases hflip : statusTimeout vs.toggle ≤ t + TICK
    · have hstep := statusStep_flip hne (by rw [hp]; exact hflip)
      have hsteady := statusRun_steady c vs.toggle rest hrest
      have hcond : ¬ (t + (p :: rest).length * TICK < statusTimeout vs.toggle) := by
        simp only [List.length_cons, TICK] at *
        omega
      rw [if_neg hcond]
      simp [statusRun, hstep, hsteady]
    · have hlt : t + TICK < statusTimeout vs.toggle := by omega
      have hstep := statusStep_pending hne (by rw [hp]; exact hlt)
      have htail := ih (t + TICK) hrest hlt
      have harith : t + TICK + rest.length * TICK = t + (p :: rest).length * TICK := by
        simp only [List.length_cons]
        ring
      simp only [statusRun, hstep, htail, harith]
      split <;> simp

/-! ### C1: device/session resolution failure handling -/

/-- C1, code bug.  The claim says a failure to resolve the default
device during the periodic forced session refresh is logged, the previous
snapshot is retained, and the loop neither panics nor exits.
`DefaultDerive::sync` (`src/winmix/default.rs` lines 40-74, used by the
`create_daemon` loop in `src/deamon.rs`) indeed logs both failures and
retains the previous device and session list — the last three conjuncts.
But the daemon `main` actually spawns (`start_daemon`, `src/main.rs`
lines 144-148) refreshes with `winmix.get_default().unwrap()`, modelled
by `mainrsRefreshSessions`: on a refresh tick (`ticks % 50 == 0`, e.g.
tick 50) with device resolution failing, the `unwrap` panics — the first
conjunct evaluates the refresh to the panic value `none`, contradicting
the claim for the loop the process runs. -/
theorem c1_refresh_panics_on_device_failure :
    mainrsRefreshSessions 50 [sessGame] none = none
    ∧ (defaultSync snapPrev true envAllFail).1.sessions = snapPrev.sessions
    ∧ (defaultSync snapPrev true envAllFail).1.derive = snapPrev.derive
    ∧ (defaultSync snapPrev true envAllFail).2 =
        ["Failed to get default device", "Failed to get sessions"] := by
  refine ⟨by decide, ?_, ?_, ?_⟩ <;> with_unfolding_all decide

/-! ### C3: the fade step size -/

/-- C3 counterexample.  The claim says the per-tick step size equals
the configuration's `transform_speed`.  With the default configuration
(`Config::new`, `transform_speed = 1.0`), fading a session at volume `0`
toward `resotre_volume = 1.0`: the claimed step function
(`fadeVolumeSpec` with step `config.transform_speed`) snaps straight to
`1.0`, but the code (`fadeVolume`, which uses the constant
`TRANSFORM_SPEED = 0.05` from `src/deamon.rs` line 11) moves to `0.05`
— the config field is never read by either daemon loop. -/
theorem c3_counterexample_config_speed_unused :
    fadeVolume Config.new.resotre_volume 0 = (1 / 20, false)
    ∧ fadeVolumeSpec Config.new.transform_speed Config.new.resotre_volume 0 = (1, true)
    ∧ (fadeVolume Config.new.resotre_volume 0).1 ≠
        (fadeVolumeSpec Config.new.transform_speed Config.new.resotre_volume 0).1 := by
  refine ⟨?_, ?_, ?_⟩ <;> with_unfolding_all decide

/-- The fade step's new volume when the offset exceeds the step size. -/
lemma fadeVolume_fst_large {expect v : ℚ} (h : |expect - v| > TRANSFORM_SPEED) :
    (fadeVolume expect v).1 = v + rustSignum (expect - v) * TRANSFORM_SPEED := by
  simp [fadeVolume, if_pos h]

/-- The fade step snaps to the target when the offset is small. -/
lemma fadeVolume_fst_small {expect v : ℚ} (h : ¬ |expect - v| > TRANSFORM_SPEED) :
    (fadeVolume expect v).1 = expect := by
  simp [fadeVolume, if_neg h]

/-- A fade step with `|offset| > TRANSFORM_SPEED` shrinks the distance
to the target by exactly `TRANSFORM_SPEED`; otherwise it lands exactly
on the target. -/
lemma fadeVolume_dist (expect v : ℚ) :
    |expect - (fadeVolume expect v).1| =
      if |expect - v| > TRANSFORM_SPEED then |expect - v| - TRANSFORM_SPEED else 0 := by
  by_cases h : |expect - v| > TRANSFORM_SPEED
  · rw [if_pos h, fadeVolume_fst_large h]
    rcases le_or_lt 0 (expect - v) with hs | hs
    · have hsig : rustSignum (expect - v) = 1 := if_pos hs
      have h1 : TRANSFORM_SPEED < expect - v := by rwa [abs_of_nonneg hs] at h
      have he : expect - (v + rustSignum (expect - v) * TRANSFORM_SPEED)
          = expect - v - TRANSFORM_SPEED := by rw [hsig]; ring
      rw [he, abs_of_nonneg (by linarith), abs_of_nonneg hs]
    · have hsig : rustSignum (expect - v) = -1 := if_neg (by linarith)
      have h1 : TRANSFORM_SPEED < -(expect - v) := by rwa [abs_of_neg hs] at h
      have he : expect - (v + rustSignum (expect - v) * TRANSFORM_SPEED)
          = expect - v + TRANSFORM_SPEED := by rw [hsig]; ring
      rw [he, abs_of_neg (by linarith), abs_of_neg hs]
      ring
  · rw [if_neg h, fadeVolume_fst_small h]
    simp

/-- C3 amended: the fader's per-tick step size is the fixed constant
`TRANSFORM_SPEED = 0.05`; the configuration's `transform_speed` field is
unused.  The code's step function coincides with the spec's step
function instantiated at the constant: a session whose offset exceeds
`0.05` moves so its distance to the target shrinks by exactly `0.05`,
and otherwise snaps exactly to the target. -/
theorem c3_step_size_is_constant (expect v : ℚ) :
    fadeVolume expect v = fadeVolumeSpec TRANSFORM_SPEED expect v
    ∧ (|expect - v| > TRANSFORM_SPEED →
        |expect - (fadeVolume expect v).1| = |expect - v| - TRANSFORM_SPEED)
    ∧ (¬ |expect - v| > TRANSFORM_SPEED → (fadeVolume expect v).1 = expect) := by
  refine ⟨rfl, ?_, ?_⟩
  · intro h
    rw [fadeVolume_dist, if_pos h]
  · intro h
    simp [fadeVolume, if_neg h]

/-- Witness for `c3_step_size_is_constant` at `expect = 0.3`, `v = 1`. -/
theorem c3_step_size_is_constant_witness :
    |(3 : ℚ) / 10 - 1| > TRANSFORM_SPEED
    ∧ |(3 : ℚ) / 10 - (fadeVolume (3 / 10) 1).1| = |(3 : ℚ) / 10 - 1| - TRANSFORM_SPEED :=
  ⟨by with_unfolding_all decide,
   (c3_step_size_is_constant (3 / 10) 1).2.1 (by with_unfolding_all decide)⟩

/-! ### C9: strict sensitivity threshold -/

/-- C9 confirmed: the loudness test is the strict inequality
`peak > sensitivity` (`src/deamon.rs` line 113, `src/main.rs` line 174):
the desired status is `Reduce` iff the measured peak strictly exceeds
the sensitivity, a peak exactly equal to the sensitivity yields
`Restore`, and over any infinite peak sequence never strictly exceeding
the sensitivity the machine stays in `Restore` forever. -/
theorem c9_strict_threshold (c : Config) (p : ℚ) (f : ℕ → ℚ) :
    (desiredStatus c p = VolumeStatus.Reduce ↔ p > c.sensitivity)
    ∧ (p = c.sensitivity → desiredStatus c p = VolumeStatus.Restore)
    ∧ ((∀ n, ¬ f n > c.sensitivity) → ∀ n,
        (statusRunF c f n).1 = VolumeStatus.Restore) := by
  refine ⟨?_, ?_, ?_⟩
  · by_cases h : p > c.sensitivity
    · simp [desiredStatus_of_loud h, h]
    · simp [desiredStatus_of_quiet h, h]
  · intro h
    exact desiredStatus_of_quiet (by rw [h]; exact lt_irrefl _)
  · intro hq n
    have key : ∀ m, statusRunF c f m = (VolumeStatus.Restore, 0) := by
      intro m
      induction m with
      | zero => rfl
      | succ k ih =>
        simp [statusRunF, ih, statusStep_same (desiredStatus_of_quiet (hq k))]
    rw [key n]

/-- Witness for `c9_strict_threshold`: the default sensitivity `0.1`
with a constant peak sequence exactly at the threshold. -/
theorem c9_strict_threshold_witness :
    desiredStatus Config.new (1 / 10) = VolumeStatus.Restore
    ∧ (statusRunF Config.new (fun _ => 1 / 10) 5).1 = VolumeStatus.Restore :=
  ⟨(c9_strict_threshold Config.new (1 / 10) (fun _ => 1 / 10)).2.1
      (by with_unfolding_all decide),
   (c9_strict_threshold Config.new (1 / 10) (fun _ => 1 / 10)).2.2
      (fun _ => by with_unfolding_all decide) 5⟩

/-! ### C10: degenerate measurement ticks -/

/-- The peak fold ignores every session that is a target, is excluded,
or whose peak read fails. -/
lemma measuredPeak_foldl_const (c : Config) :
    ∀ (ss : List Session) (a : ℚ),
      (∀ s ∈ ss, sessionIsTarget c s = true ∨ sessionIsExclude c s = true ∨
        s.peak = none) →
      ss.foldl
        (fun peak s =>
          if !sessionIsTarget c s && !sessionIsExclude c s then
            match s.peak with
            | some p => max peak p
            | none => peak
          else peak)
        a = a := by
  intro ss
  induction ss with
  | nil => intro a _; rfl
  | cons s rest ih =>
    intro a h
    have hs := h s (List.mem_cons_self s rest)
    have hrest := fun q hq => h q (List.mem_cons_of_mem s hq)
    simp only [List.foldl_cons]
    rcases hs with ht | he | hp
    · rw [show (if !sessionIsTarget c s && !sessionIsExclude c s then
          (match s.peak with | some p => max a p | none => a) else a) = a by
        simp [ht]]
      exact ih a hrest
    · rw [show (if !sessionIsTarget c s && !sessionIsExclude c s then
          (match s.peak with | some p => max a p | none => a) else a) = a by
        simp [he]]
      exact ih a hrest
    · rw [show (if !sessionIsTarget c s && !sessionIsExclude c s then
          (match s.peak with | some p => max a p | none => a) else a) = a by
        rcases hb : !sessionIsTarget c s && !sessionIsExclude c s <;> simp [hp]]
      exact ih a hrest

/-- C10 confirmed: on a tick where every session in the snapshot is a
target or excluded (covering the empty list vacuously) or has a failing
peak read, the measured peak is exactly `0`, and for any configuration
with nonnegative sensitivity the desired status on such a tick is
`Restore`. -/
theorem c10_degenerate_peak_zero (c : Config) (sessions : List Session)
    (h : ∀ s ∈ sessions, sessionIsTarget c s = true ∨ sessionIsExclude c s = true ∨
      s.peak = none) :
    measuredPeak c sessions = 0
    ∧ (0 ≤ c.sensitivity →
        desiredStatus c (measuredPeak c sessions) = VolumeStatus.Restore) := by
  have hz : measuredPeak c sessions = 0 := measuredPeak_foldl_const c sessions 0 h
  refine ⟨hz, fun hs => ?_⟩
  rw [hz]
  exact desiredStatus_of_quiet (not_lt.mpr hs)

/-- Witness for `c10_degenerate_peak_zero`: a snapshot holding only the
target session `game`, with the `cfgGame` configuration. -/
theorem c10_degenerate_peak_zero_witness :
    measuredPeak cfgGame [sessGame] = 0
    ∧ desiredStatus cfgGame (measuredPeak cfgGame [sessGame]) = VolumeStatus.Restore :=
  ⟨(c10_degenerate_peak_zero cfgGame [sessGame] (by decide)).1,
   (c10_degenerate_peak_zero cfgGame [sessGame] (by decide)).2
      (by with_unfolding_all decide)⟩

/-! ### C5: the asymmetric debounce -/

/-- C5 confirmed: starting from `Restore` with a zero accumulator, a
run of ticks whose peaks all strictly exceed the sensitivity flips the
status only once the accumulated pending time reaches `REDUCE_TIMEOUT`
(200 ms, i.e. two 100 ms ticks): shorter excursions leave the status
(and flip count 0), longer ones end in `Reduce` with the accumulator
reset and exactly one flip.  Symmetrically from `Reduce`, a run of
at-or-below-sensitivity ticks restores only at `RESOTRE_TIMEOUT` (3 s),
exactly once. -/
theorem c5_debounce (c : Config) (loudPeaks quietPeaks : List ℚ)
    (hl : ∀ p ∈ loudPeaks, p > c.sensitivity)
    (hq : ∀ p ∈ quietPeaks, ¬ p > c.sensitivity) :
    ((loudPeaks.length * TICK < REDUCE_TIMEOUT →
        statusRun c (VolumeStatus.Restore, 0) loudPeaks =
          ((VolumeStatus.Restore, loudPeaks.length * TICK), 0))
      ∧ (REDUCE_TIMEOUT ≤ loudPeaks.length * TICK →
        statusRun c (VolumeStatus.Restore, 0) loudPeaks =
          ((VolumeStatus.Reduce, 0), 1)))
    ∧ ((quietPeaks.length * TICK < RESOTRE_TIMEOUT →
        statusRun c (VolumeStatus.Reduce, 0) quietPeaks =
          ((VolumeStatus.Reduce, quietPeaks.length * TICK), 0))
      ∧ (RESOTRE_TIMEOUT ≤ quietPeaks.length * TICK →
        statusRun c (VolumeStatus.Reduce, 0) quietPeaks =
          ((VolumeStatus.Restore, 0), 1))) := by
  have hloud := statusRun_pending c VolumeStatus.Restore loudPeaks 0
    (fun p hp => desiredStatus_of_loud (hl p hp))
    (by simp [statusTimeout, VolumeStatus.toggle, REDUCE_TIMEOUT])
  have hquiet := statusRun_pending c VolumeStatus.Reduce quietPeaks 0
    (fun p hp => desiredStatus_of_quiet (hq p hp))
    (by simp [statusTimeout, VolumeStatus.toggle, RESOTRE_TIMEOUT])
  simp only [VolumeStatus.toggle, statusTimeout, Nat.zero_add] at hloud hquiet
  constructor
  · constructor
    · intro hlen
      rw [hloud, if_pos hlen]
    · intro hlen
      rw [hloud, if_neg (by omega)]
  · constructor
    · intro hlen
      rw [hquiet, if_pos hlen]
    · intro hlen
      rw [hquiet, if_neg (by omega)]

/-- Witness for `c5_debounce`: with the default sensitivity `0.1`, one
loud tick (100 ms < 200 ms) does not flip, three loud ticks (300 ms ≥
200 ms) flip to `Reduce` exactly once; one quiet tick from `Reduce`
(100 ms < 3 s) does not restore. -/
theorem c5_debounce_witness :
    statusRun Config.new (VolumeStatus.Restore, 0) [1 / 2] =
      ((VolumeStatus.Restore, 100), 0)
    ∧ statusRun Config.new (VolumeStatus.Restore, 0) [1 / 2, 1 / 2, 1 / 2] =
      ((VolumeStatus.Reduce, 0), 1)
    ∧ statusRun Config.new (VolumeStatus.Reduce, 0) [0] =
      ((VolumeStatus.Reduce, 100), 0) :=
  ⟨(c5_debounce Config.new [1 / 2] []
      (by intro p hp; fin_cases hp <;> with_unfolding_all decide)
      (by simp)).1.1 (by decide),
   (c5_debounce Config.new [1 / 2, 1 / 2, 1 / 2] []
      (by intro p hp; fin_cases hp <;> with_unfolding_all decide)
      (by simp)).1.2 (by decide),
   (c5_debounce Config.new [] [0] (by simp)
      (by intro p hp; fin_cases hp <;> with_unfolding_all decide)).2.1 (by decide)⟩

/-! ### C7: targets take precedence over excludes in measurement -/

/-- The peak fold over the session list equals the `max`-fold over the
successfully read peaks of the unclassified sessions, for any
accumulator. -/
lemma measuredPeak_foldl_filter (c : Config) :
    ∀ (ss : List Session) (a : ℚ),
      ss.foldl
        (fun peak s =>
          if !sessionIsTarget c s && !sessionIsExclude c s then
            match s.peak with
            | some p => max peak p
            | none => peak
          else peak)
        a =
      ((ss.filter fun s => !sessionIsTarget c s && !sessionIsExclude c s).filterMap
        fun s => s.peak).foldl max a := by
  intro ss
  induction ss with
  | nil => intro a; rfl
  | cons s rest ih =>
    intro a
    by_cases hb : (!sessionIsTarget c s && !sessionIsExclude c s) = true
    · cases hp : s.peak with
      | some p =>
        simp only [List.foldl_cons, List.filter_cons, hb, if_pos, List.filterMap_cons,
          hp]
        rw [ih]
      | none =>
        simp only [List.foldl_cons, List.filter_cons, hb, if_pos, List.filterMap_cons,
          hp]
        rw [ih]
    · simp only [List.foldl_cons, List.filter_cons, hb]
      rw [if_neg (by simp_all), ih]
      simp [hb]

/-- C7 confirmed: a session whose name contains both a configured
target substring and a configured exclude substring is classified as a
target — it is in the target set and not among the measured sessions —
and in general the measured peak is the `max`-fold (with floor `0`) of
the successfully read peaks of exactly the sessions whose name contains
no target substring and no exclude substring
(`measuredPeakFilterSpec`). -/
theorem c7_target_wins_over_exclude (c : Config) (sessions : List Session) :
    (∀ s ∈ sessions,
      (∃ t ∈ c.targets, rustContains s.name t = true) →
      (∃ e ∈ c.exclude, rustContains s.name e = true) →
      s ∈ targetsOf c sessions
      ∧ s ∉ sessions.filter fun x => !sessionIsTarget c x && !sessionIsExclude c x)
    ∧ measuredPeak c sessions = measuredPeakFilterSpec c sessions := by
  constructor
  · intro s hs htgt _
    have htarget : sessionIsTarget c s = true := by
      rcases htgt with ⟨t, ht, hcon⟩
      simp only [sessionIsTarget, List.any_eq_true]
      exact ⟨t, ht, hcon⟩
    constructor
    · exact List.mem_filter.mpr ⟨hs, htarget⟩
    · intro hmem
      have := (List.mem_filter.mp hmem).2
      simp [htarget] at this
  · exact measuredPeak_foldl_filter c sessions 0

/-- Witness for `c7_target_wins_over_exclude`: the name `game` matches
the target substring `"game"` and the exclude substring `"ame"` of a
configuration carrying both. -/
theorem c7_target_wins_over_exclude_witness :
    sessGame ∈ targetsOf ⟨["ame"], ["game"], 1, 1, 3 / 10, 1 / 10⟩ [sessGame]
    ∧ sessGame ∉ List.filter
        (fun x => !sessionIsTarget ⟨["ame"], ["game"], 1, 1, 3 / 10, 1 / 10⟩ x &&
          !sessionIsExclude ⟨["ame"], ["game"], 1, 1, 3 / 10, 1 / 10⟩ x) [sessGame]
    ∧ measuredPeak ⟨["ame"], ["game"], 1, 1, 3 / 10, 1 / 10⟩ [sessGame] =
        measuredPeakFilterSpec ⟨["ame"], ["game"], 1, 1, 3 / 10, 1 / 10⟩ [sessGame] := by
  have h := c7_target_wins_over_exclude ⟨["ame"], ["game"], 1, 1, 3 / 10, 1 / 10⟩
    [sessGame]
  have hm := h.1 sessGame (List.mem_cons_self _ _)
    ⟨"game", by decide, by decide⟩ ⟨"ame", by decide, by decide⟩
  exact ⟨hm.1, hm.2, h.2⟩

/-! ### C6: monotone fade convergence -/

/-- Unrolling the fade iteration from the right. -/
lemma fadeIter_succ_right (e : ℚ) :
    ∀ (n : ℕ) (v : ℚ), fadeIter e v (n + 1) = (fadeVolume e (fadeIter e v n)).1 := by
  intro n
  induction n with
  | zero => intro v; rfl
  | succ n ih =>
    intro v
    show fadeIter e (fadeVolume e v).1 (n + 1) = _
    rw [ih]
    rfl

/-- One fade step never crosses to the other side of the target: the
sign of the remaining offset is preserved (or the offset becomes 0). -/
lemma fadeVolume_sign (e v : ℚ) :
    (0 ≤ e - v → 0 ≤ e - (fadeVolume e v).1)
    ∧ (e - v ≤ 0 → e - (fadeVolume e v).1 ≤ 0) := by
  by_cases h : |e - v| > TRANSFORM_SPEED
  · rw [fadeVolume_fst_large h]
    constructor
    · intro hv
      have hsig : rustSignum (e - v) = 1 := if_pos hv
      have h1 : TRANSFORM_SPEED < e - v := by rwa [abs_of_nonneg hv] at h
      rw [hsig]
      linarith
    · intro hv
      rcases eq_or_lt_of_le hv with he | he
      · exfalso
        rw [he, abs_zero] at h
        linarith [transform_speed_pos]
      · have hsig : rustSignum (e - v) = -1 := if_neg (by linarith)
        have h1 : TRANSFORM_SPEED < -(e - v) := by rwa [abs_of_neg he] at h
        rw [hsig]
        linarith
  · rw [fadeVolume_fst_small h]
    simp

/-- The fade iteration never crosses the target. -/
lemma fadeIter_sign (e v : ℚ) :
    ∀ k, (0 ≤ e - v → 0 ≤ e - fadeIter e v k)
      ∧ (e - v ≤ 0 → e - fadeIter e v k ≤ 0) := by
  intro k
  induction k with
  | zero => exact ⟨fun h => h, fun h => h⟩
  | succ k ih =>
    rw [fadeIter_succ_right]
    exact ⟨fun h => (fadeVolume_sign e (fadeIter e v k)).1 (ih.1 h),
           fun h => (fadeVolume_sign e (fadeIter e v k)).2 (ih.2 h)⟩

/-- Once the initial offset fits in `n` steps, `n` fade iterations land
exactly on the target. -/
lemma fadeIter_converge (e : ℚ) :
    ∀ (n : ℕ) (v : ℚ), |e - v| ≤ (n : ℚ) * TRANSFORM_SPEED → fadeIter e v n = e := by
  intro n
  induction n with
  | zero =>
    intro v h
    simp only [Nat.cast_zero, zero_mul] at h
    have : e - v = 0 := abs_eq_zero.mp (le_antisymm h (abs_nonneg _))
    show v = e
    linarith [this]
  | succ n ih =>
    intro v h
    show fadeIter e (fadeVolume e v).1 n = e
    apply ih
    rw [fadeVolume_dist]
    push_cast at h
    by_cases hb : |e - v| > TRANSFORM_SPEED
    · rw [if_pos hb]
      linarith
    · rw [if_neg hb]
      have := transform_speed_pos
      positivity

/-- C6 confirmed (over the exact-arithmetic model of the `f32` fade):
once the fader is armed with target `expect`, the per-session fade
iteration strictly shrinks the distance to the target while the volume
differs from it, never grows it, never crosses to the other side of the
target (no overshoot or oscillation), and reaches the target exactly
within `⌈|initialOffset| / TRANSFORM_SPEED⌉` ticks. -/
theorem c6_fade_monotone_convergence (expect v : ℚ) :
    (∀ k, fadeIter expect v k ≠ expect →
      |expect - fadeIter expect v (k + 1)| < |expect - fadeIter expect v k|)
    ∧ (∀ k, |expect - fadeIter expect v (k + 1)| ≤ |expect - fadeIter expect v k|)
    ∧ (∀ k, 0 ≤ (expect - v) * (expect - fadeIter expect v k))
    ∧ fadeIter expect v (Int.ceil (|expect - v| / TRANSFORM_SPEED)).toNat = expect := by
  refine ⟨?_, ?_, ?_, ?_⟩
  · intro k hk
    rw [fadeIter_succ_right, fadeVolume_dist]
    have hpos : 0 < |expect - fadeIter expect v k| :=
      abs_pos.mpr (sub_ne_zero.mpr fun hh => hk hh.symm)
    by_cases hb : |expect - fadeIter expect v k| > TRANSFORM_SPEED
    · rw [if_pos hb]
      linarith [transform_speed_pos]
    · rw [if_neg hb]
      exact hpos
  · intro k
    rw [fadeIter_succ_right, fadeVolume_dist]
    by_cases hb : |expect - fadeIter expect v k| > TRANSFORM_SPEED
    · rw [if_pos hb]
      linarith [transform_speed_pos]
    · rw [if_neg hb]
      exact abs_nonneg _
  · intro k
    rcases le_total 0 (expect - v) with hv | hv
    · exact mul_nonneg hv ((fadeIter_sign expect v k).1 hv)
    · have h2 := (fadeIter_sign expect v k).2 hv
      have h3 := mul_nonneg (neg_nonneg.mpr hv) (neg_nonneg.mpr h2)
      have h4 : -(expect - v) * -(expect - fadeIter expect v k)
          = (expect - v) * (expect - fadeIter expect v k) := by ring
      rwa [h4] at h3
  · have h0 : (0 : ℚ) ≤ |expect - v| / TRANSFORM_SPEED :=
      div_nonneg (abs_nonneg _) (le_of_lt transform_speed_pos)
    have hc : (0 : ℤ) ≤ Int.ceil (|expect - v| / TRANSFORM_SPEED) :=
      Int.ceil_nonneg h0
    apply fadeIter_converge
    have h1 := Int.le_ceil (|expect - v| / TRANSFORM_SPEED)
    rw [div_le_iff₀ transform_speed_pos] at h1
    have h2 : (((Int.ceil (|expect - v| / TRANSFORM_SPEED)).toNat : ℕ) : ℚ)
        = ((Int.ceil (|expect - v| / TRANSFORM_SPEED) : ℤ) : ℚ) := by
      exact_mod_cast Int.toNat_of_nonneg hc
    rw [h2]
    exact h1

/-- Witness for `c6_fade_monotone_convergence`: fading from volume `1`
toward `0.3` (the spec §8 scenario), the first step strictly shrinks the
distance, and the target is reached within the ceiling bound (14 ticks). -/
theorem c6_fade_monotone_convergence_witness :
    fadeIter (3 / 10) 1 0 ≠ (3 : ℚ) / 10
    ∧ |(3 : ℚ) / 10 - fadeIter (3 / 10) 1 1| < |(3 : ℚ) / 10 - fadeIter (3 / 10) 1 0|
    ∧ fadeIter (3 / 10) 1
        (Int.ceil (|(3 : ℚ) / 10 - 1| / TRANSFORM_SPEED)).toNat = 3 / 10 :=
  ⟨by with_unfolding_all decide,
   (c6_fade_monotone_convergence (3 / 10) 1).1 0 (by with_unfolding_all decide),
   (c6_fade_monotone_convergence (3 / 10) 1).2.2.2⟩

/-! ### C2: per-session volume failure scoping -/

/-- C2 counterexample.  The claim says a failure to *read or write*
one session's volume is ignored for that session only and the tick
completes without panicking.  But the fade loop reads volumes with
`target.volume.get_volume().unwrap()` (`src/deamon.rs` line 130,
`src/main.rs` line 191): on a tick whose snapshot holds a target session
whose volume read fails, the tick panics (the embedded tick evaluates to
`none`). -/
theorem c2_counterexample_read_failure_panics :
    runTick stBadRead envAllFail = none
    ∧ sessGameBadRead ∈ targetsOf stBadRead.config (syncedSessions stBadRead envAllFail)
    ∧ sessGameBadRead.volumeOk = false := by
  refine ⟨?_, ?_, ?_⟩ <;> with_unfolding_all decide

/-- If every target's volume read succeeds, the fade loop completes and
issues one write per target. -/
lemma fadeAll_ok (e : ℚ) :
    ∀ ts : List Session, (∀ s ∈ ts, s.volumeOk = true) →
      ∃ p, fadeAll e ts = some p ∧ ∀ s ∈ ts, ∃ v, (s.pid, v) ∈ p.1 := by
  intro ts
  induction ts with
  | nil => intro _; exact ⟨([], 0), rfl, by simp⟩
  | cons s rest ih =>
    intro h
    obtain ⟨p, hp, hmem⟩ := ih fun q hq => h q (List.mem_cons_of_mem s hq)
    have hok : s.volumeOk = true := h s (List.mem_cons_self s rest)
    refine ⟨((s.pid, (fadeVolume e s.volume).1) :: p.1,
      p.2 + if (fadeVolume e s.volume).2 then 1 else 0), ?_, ?_⟩
    · simp [fadeAll, hok, hp]
    · intro q hq
      rcases List.mem_cons.mp hq with rfl | hq2
      · exact ⟨(fadeVolume e q.volume).1, List.mem_cons_self _ _⟩
      · obtain ⟨v, hv⟩ := hmem q hq2
        exact ⟨v, List.mem_cons_of_mem _ hv⟩

/-- If the fade is armed and every target's volume read succeeds, the
classify/state-machine/fade phase completes with one write per target. -/
lemma runningPhase_ok (st : DaemonState) (snap : Snapshot)
    (htr : st.transform = true)
    (hok : ∀ s ∈ targetsOf st.config snap.sessions, s.volumeOk = true) :
    ∃ r, runningPhase st snap = some r
      ∧ ∀ s ∈ targetsOf st.config snap.sessions, ∃ v, (s.pid, v) ∈ r.writes := by
  obtain ⟨p, hp, hmem⟩ := fadeAll_ok
    (if (statusStep st.config st.volume_status st.timeout
          (measuredPeak st.config snap.sessions)).2.2 then
      ((statusStep st.config st.volume_status st.timeout
          (measuredPeak st.config snap.sessions)).1).volume st.config
     else st.expect_volume)
    (targetsOf st.config snap.sessions) hok
  obtain ⟨ws, k⟩ := p
  simp only [runningPhase, htr, ite_self, if_true, hp]
  exact ⟨_, rfl, hmem⟩

/-- C2 amended: only volume *write* failures are ignored per session
— the source discards `set_volume`'s result (`let _ =`), so the loop's
behaviour cannot depend on a write failing (the embedding accordingly
emits writes as effects with no result), and on a tick whose target
volume reads all succeed the tick completes and every target still
receives its fade write.  A volume *read* failure, by contrast, panics
the daemon thread (`get_volume().unwrap()` — see the counterexample). -/
theorem c2_write_failures_scoped (st : DaemonState) (env : SyncEnv)
    (htr : st.transform = true)
    (hok : ∀ s ∈ targetsOf st.config (syncedSessions st env), s.volumeOk = true) :
    ∃ r, runTick st env = some r
      ∧ ∀ s ∈ targetsOf st.config (syncedSessions st env),
          ∃ v, (s.pid, v) ∈ r.writes :=
  runningPhase_ok st _ htr hok

/-- Witness for `c2_write_failures_scoped`: the mid-fade state whose one
target session `game` reads fine. -/
theorem c2_write_failures_scoped_witness :
    stMidFade.transform = true
    ∧ ∃ r, runTick stMidFade envAllFail = some r
      ∧ ∀ s ∈ targetsOf stMidFade.config (syncedSessions stMidFade envAllFail),
          ∃ v, (s.pid, v) ∈ r.writes :=
  ⟨rfl, c2_write_failures_scoped stMidFade envAllFail rfl
    (by with_unfolding_all decide)⟩

/-! ### C4: when the fade target volume changes -/

/-- The hysteresis step either flips (and moves to the toggled status)
or reports no flip (and keeps the status). -/
lemma statusStep_cases (c : Config) (vs : VolumeStatus) (t : ℕ) (p : ℚ) :
    ((statusStep c vs t p).2.2 = true ∧ (statusStep c vs t p).1 = vs.toggle)
    ∨ ((statusStep c vs t p).2.2 = false ∧ (statusStep c vs t p).1 = vs) := by
  simp only [statusStep]
  split
  · split
    · exact Or.inl ⟨rfl, rfl⟩
    · exact Or.inr ⟨rfl, rfl⟩
  · exact Or.inr ⟨rfl, rfl⟩

/-- The status and fade-target fields a completed phase ends with. -/
lemma runningPhase_fields (st : DaemonState) (snap : Snapshot) (r : TickResult)
    (h : runningPhase st snap = some r) :
    r.state.volume_status =
      (statusStep st.config st.volume_status st.timeout
        (measuredPeak st.config snap.sessions)).1
    ∧ r.state.expect_volume =
      (if (statusStep st.config st.volume_status st.timeout
            (measuredPeak st.config snap.sessions)).2.2 then
        ((statusStep st.config st.volume_status st.timeout
            (measuredPeak st.config snap.sessions)).1).volume st.config
       else st.expect_volume) := by
  simp only [runningPhase] at h
  repeat' split at h
  all_goals try exact Option.noConfusion h
  all_goals try contradiction
  all_goals try simp only [Option.some.injEq] at h
  all_goals subst h
  all_goals refine ⟨rfl, ?_⟩
  all_goals simp [*]

/-- C4 amended: the fade target `expect_volume` changes only when the
status flips, and then it is set to the flipped status's volume drawn
from the configuration current at that tick (including a configuration
delivered by `Update` on the same tick).  When no flip happens — in
particular on the tick right after an `Update` arrives mid-fade — the
fade target keeps its previous value, which came from the configuration
in force at the *last* flip and need not be any volume of the current
configuration (see the counterexample). -/
theorem c4_fade_target_changes_only_on_flip (st : DaemonState) (env : SyncEnv)
    (r : TickResult) (h : runTick st env = some r) :
    (r.state.volume_status = st.volume_status →
      r.state.expect_volume = st.expect_volume)
    ∧ (r.state.volume_status ≠ st.volume_status →
      r.state.expect_volume = r.state.volume_status.volume st.config) := by
  have h2 : runningPhase st
      (defaultSync st.device (decide (st.ticks % FORCE_RELOAD_TICKS = 0)) env).1
      = some r := h
  obtain ⟨hvs, hev⟩ := runningPhase_fields st _ r h2
  rcases statusStep_cases st.config st.volume_status st.timeout
    (measuredPeak st.config (defaultSync st.device
      (decide (st.ticks % FORCE_RELOAD_TICKS = 0)) env).1.sessions) with
    ⟨hf, hs⟩ | ⟨hf, hs⟩
  · constructor
    · intro heq
      exfalso
      apply VolumeStatus.toggle_ne st.volume_status
      rw [← hs, ← hvs, heq]
    · intro _
      simp only [hf, if_true] at hev
      rw [hev, hvs]
  · constructor
    · intro _
      simp only [hf, Bool.false_eq_true, if_false] at hev
      exact hev
    · intro hne
      exfalso
      exact hne (hvs.trans hs)

/-- The tick result `stMidFade` reaches under `envAllFail`: no flip
(the quiet tick only accumulates 100 ms toward the 3 s restore
timeout), fade target still `0.3`, one fade write moving `game` from
`0.5` to `0.45`. -/
def rMidFade : TickResult :=
  ⟨⟨cfgGame, true, 6, VolumeStatus.Reduce, 3 / 10, 100, ⟨7, [sessGame], false, false⟩⟩,
   [(101, 9 / 20)]⟩

/-- Witness for `c4_fade_target_changes_only_on_flip`: on the concrete
no-flip tick from `stMidFade`, the fade target is retained. -/
theorem c4_fade_target_changes_only_on_flip_witness :
    runTick stMidFade envAllFail = some rMidFade
    ∧ rMidFade.state.expect_volume = stMidFade.expect_volume :=
  ⟨by with_unfolding_all decide,
   (c4_fade_target_changes_only_on_flip stMidFade envAllFail rMidFade
      (by with_unfolding_all decide)).1 (by decide)⟩

/-- C4 counterexample.  The claim says an `UpdateConfig` with a new
`reduceVolume` arriving mid-fade makes the fade target equal the new
`reduceVolume` on the next tick (and that the target is always one of
the current configuration's volumes).  Starting mid-fade toward the old
`reduceVolume = 0.3` and delivering `Update` with `reduceVolume = 0.6`:
on the next tick the fade target is still `0.3`, which equals neither
the new `reduceVolume = 0.6` nor the new `restoreVolume = 1` — the code
only reassigns `expect_volume` at a status flip (`src/deamon.rs` lines
118-119). -/
theorem c4_counterexample_update_midfade :
    (loopIter stMidFade [DaemonCommand.Update cfgGameNewReduce] true
      envAllFail).expectVolume = some (3 / 10)
    ∧ cfgGameNewReduce.reduce_volume = 3 / 5
    ∧ cfgGameNewReduce.resotre_volume = 1
    ∧ ((3 : ℚ) / 10 ≠ cfgGameNewReduce.reduce_volume)
    ∧ ((3 : ℚ) / 10 ≠ cfgGameNewReduce.resotre_volume) := by
  refine ⟨?_, ?_, ?_, ?_, ?_⟩ <;> with_unfolding_all decide

/-! ### C8: the Suspend/Resume frame -/

/-- The suspended inner loop ignores every non-`Resume` command and, once
the queue is exhausted, blocks while the sender lives and stops once it
is dropped. -/
lemma suspendLoop_no_resume (connected : Bool) :
    ∀ mid : List DaemonCommand, (∀ cmd ∈ mid, cmd.isResume = false) →
      suspendLoop connected mid =
        if connected then SuspendResult.blocked else SuspendResult.stopped := by
  intro mid
  induction mid with
  | nil => intro _; rfl
  | cons cmd rest ih =>
    intro h
    have hc := h cmd (List.mem_cons_self _ _)
    have hr := ih fun q hq => h q (List.mem_cons_of_mem _ hq)
    cases cmd with
    | Resume => simp [DaemonCommand.isResume] at hc
    | Suspend => simpa [suspendLoop] using hr
    | Update c => simpa [suspendLoop] using hr

/-- The suspended inner loop skips any run of non-`Resume` commands and
wakes on the first `Resume`, handing back the rest of the queue. -/
lemma suspendLoop_finds_resume (connected : Bool) :
    ∀ (mid rest : List DaemonCommand), (∀ cmd ∈ mid, cmd.isResume = false) →
      suspendLoop connected (mid ++ DaemonCommand.Resume :: rest) =
        SuspendResult.resumed rest := by
  intro mid
  induction mid with
  | nil => intro rest _; rfl
  | cons cmd mid ih =>
    intro rest h
    have hc := h cmd (List.mem_cons_self _ _)
    have hr := ih rest fun q hq => h q (List.mem_cons_of_mem _ hq)
    cases cmd with
    | Resume => simp [DaemonCommand.isResume] at hc
    | Suspend => simpa [suspendLoop] using hr
    | Update c => simpa [suspendLoop] using hr

/-- C8 confirmed: an iteration that receives `Suspend` followed by
any run of non-`Resume` commands and then `Resume` is *identical* to an
iteration that just receives `Resume`: nothing happens in between — no
tick, no sync, no classification, no volume writes — the loop state
(status, accumulator, fade target, transform flag, snapshot) is
untouched, the intervening commands (including `Update`) are ignored,
and the tick after the `Resume` picks up exactly where the loop left
off.  If no `Resume` arrives the loop stays blocked (still touching
nothing), and a channel disconnection while suspended terminates the
loop. -/
theorem c8_suspend_frame (st : DaemonState) (mid rest : List DaemonCommand)
    (env : SyncEnv) (hmid : ∀ cmd ∈ mid, cmd.isResume = false) :
    loopIter st (DaemonCommand.Suspend :: (mid ++ DaemonCommand.Resume :: rest))
        true env
      = loopIter st (DaemonCommand.Resume :: rest) true env
    ∧ loopIter st (DaemonCommand.Suspend :: mid) true env = LoopStep.blocked
    ∧ loopIter st (DaemonCommand.Suspend :: mid) false env = LoopStep.stopped := by
  refine ⟨?_, ?_, ?_⟩
  · simp [loopIter, suspendLoop_finds_resume true mid rest hmid]
  · simp [loopIter, suspendLoop_no_resume true mid hmid]
  · simp [loopIter, suspendLoop_no_resume false mid hmid]

/-- Witness for `c8_suspend_frame`: `Suspend`, then an `Update` (ignored
while suspended), then `Resume`, from the concrete mid-fade state. -/
theorem c8_suspend_frame_witness :
    loopIter stMidFade [DaemonCommand.Suspend,
        DaemonCommand.Update cfgGameNewReduce, DaemonCommand.Resume] true envAllFail
      = loopIter stMidFade [DaemonCommand.Resume] true envAllFail
    ∧ loopIter stMidFade [DaemonCommand.Suspend,
        DaemonCommand.Update cfgGameNewReduce] true envAllFail = LoopStep.blocked
    ∧ loopIter stMidFade [DaemonCommand.Suspend,
        DaemonCommand.Update cfgGameNewReduce] false envAllFail = LoopStep.stopped :=
  c8_suspend_frame stMidFade [DaemonCommand.Update cfgGameNewReduce] [] envAllFail
    (by decide)
